import Mathlib

/-!
Shallow embedding of the rate-limiting and audit-logging core of the
edurank-glow repository: the TypeScript rate limit utility
(`checkRateLimit`, `logRateLimitRequest`, `DEFAULT_RATE_LIMITS`) and the
SQL functions `get_rate_limit_status` and `log_audit_event` of migration
`20260122000000_add_rate_limiting_and_audit_tables.sql`.

Timestamps are modelled as integers in milliseconds (`Date.getTime()` in
the source); the SQL intervals '1 hour' / '1 day' are the same durations
on the same timeline.
-/

namespace EduRank

/-- `60 * 60 * 1000` milliseconds, the hourly window of the source. -/
def hourMs : Int := 60 * 60 * 1000

/-- `24 * 60 * 60 * 1000` milliseconds, the daily window of the source. -/
def dayMs : Int := 24 * 60 * 60 * 1000

/-- `RateLimitConfig` of the TypeScript source. -/
structure RateLimitConfig where
  operation : String
  userId : String
  limitsPerHour : Int
  limitsPerDay : Int
deriving Repr, DecidableEq

/-- `RateLimitResult` of the TypeScript source; the optional `message`
field is an `Option`, and the `Date` fields are millisecond timestamps. -/
structure RateLimitResult where
  allowed : Bool
  remaining : Int
  resetAtHour : Int
  resetAtDay : Int
  message : Option String
deriving Repr, DecidableEq

/-- The two windows `checkRateLimit` may query. -/
inductive Window where
  | hourly
  | daily
deriving Repr, DecidableEq

/-- Outcome of one Supabase count query as `checkRateLimit` observes it:
the destructured `{ count, error }` where `count` may be `null`
(`ok none`), the `error` field may be set (`storageError`), or the
awaited call may throw (`thrown`), reaching the enclosing `catch`. -/
inductive QueryOutcome where
  | ok (count : Option Int)
  | storageError
  | thrown
deriving Repr, DecidableEq

/-- JavaScript `c || 0` on a possibly-null number: `null` and `0` both
give `0`, any other value gives itself. -/
def jsOrZero (c : Option Int) : Int :=
  match c with
  | none => 0
  | some v => if v == 0 then 0 else v

/-- `checkRateLimit` of the TypeScript source, instrumented with the list
of windows it queried, in order.  The Supabase client is abstracted as a
map from window to query outcome.  Control flow follows the source:
hourly query, hourly-error fail-open return, daily query, daily-error
fail-open return, `hourlyUsed >= limitsPerHour` denial,
`dailyUsed >= limitsPerDay` denial, allow; a thrown query lands in the
top-level `catch`, whose fail-open result carries no message. -/
def checkRateLimit (client : Window → QueryOutcome) (config : RateLimitConfig)
    (now : Int) : RateLimitResult × List Window :=
  match client Window.hourly with
  | QueryOutcome.thrown =>
      ({ allowed := true
         remaining := config.limitsPerHour
         resetAtHour := now + hourMs
         resetAtDay := now + dayMs
         message := none }, [Window.hourly])
  | QueryOutcome.storageError =>
      ({ allowed := true
         remaining := config.limitsPerHour
         resetAtHour := now + hourMs
         resetAtDay := now + dayMs
         message := some "Rate limit check failed (allowing request)" }, [Window.hourly])
  | QueryOutcome.ok hourlyCount =>
    match client Window.daily with
    | QueryOutcome.thrown =>
        ({ allowed := true
           remaining := config.limitsPerHour
           resetAtHour := now + hourMs
           resetAtDay := now + dayMs
           message := none }, [Window.hourly, Window.daily])
    | QueryOutcome.storageError =>
        ({ allowed := true
           remaining := config.limitsPerDay
           resetAtHour := now + hourMs
           resetAtDay := now + dayMs
           message := some "Rate limit check failed (allowing request)" },
         [Window.hourly, Window.daily])
    | QueryOutcome.ok dailyCount =>
      let hourlyUsed := jsOrZero hourlyCount
      let dailyUsed := jsOrZero dailyCount
      if hourlyUsed ≥ config.limitsPerHour then
        ({ allowed := false
           remaining := 0
           resetAtHour := now + hourMs
           resetAtDay := now + dayMs
           message := some ("Rate limit exceeded for " ++ config.operation ++ ". Max "
             ++ toString config.limitsPerHour ++ " requests per hour. Try again in an hour.") },
         [Window.hourly, Window.daily])
      else if dailyUsed ≥ config.limitsPerDay then
        ({ allowed := false
           remaining := 0
           resetAtHour := now + hourMs
           resetAtDay := now + dayMs
           message := some ("Daily limit exceeded for " ++ config.operation ++ ". Max "
             ++ toString config.limitsPerDay ++ " requests per day. Try again tomorrow.") },
         [Window.hourly, Window.daily])
      else
        ({ allowed := true
           remaining := config.limitsPerHour - hourlyUsed - 1
           resetAtHour := now + hourMs
           resetAtDay := now + dayMs
           message := none }, [Window.hourly, Window.daily])

/-- A row of the `rate_limit_logs` table (migration
`20260122000000`): `user_id`, `operation`, `success`, `created_at`
(`id`, `metadata` and `ip_address` do not enter any computation of the
core and are kept as the row identifier and omitted payload). -/
structure RequestLogEntry where
  id : Nat
  userId : String
  operation : String
  success : Bool
  createdAt : Int
deriving Repr, DecidableEq

/-- The count the TypeScript `checkRateLimit` queries per window:
`.eq(user_id) .eq(operation) .gte(created_at, cutoff)` over
`rate_limit_logs` with `count: exact`. -/
def rateLimitCount (log : List RequestLogEntry) (uid op : String) (cutoff : Int) : Int :=
  ((log.filter (fun e => e.userId == uid && e.operation == op && cutoff ≤ e.createdAt)).length : Int)

/-- The row type returned by the SQL function `get_rate_limit_status`. -/
structure RateLimitStatusRow where
  requests_this_hour : Int
  requests_this_day : Int
  hour_resets_at : Option Int
  day_resets_at : Option Int
deriving Repr, DecidableEq

/-- SQL `MIN(created_at)` over a list of rows: `NULL` on the empty set,
otherwise the least `created_at`. -/
def sqlMinCreatedAt (rows : List RequestLogEntry) : Option Int :=
  rows.foldr
    (fun e acc =>
      match acc with
      | none => some e.createdAt
      | some m => some (min e.createdAt m))
    none

/-- The row set of one `SELECT` of `get_rate_limit_status`: the rows of
`rate_limit_logs` with `user_id = p_user_id AND operation = p_operation
AND created_at > cutoff`. -/
def windowRows (log : List RequestLogEntry) (uid op : String) (cutoff : Int) :
    List RequestLogEntry :=
  log.filter (fun e => e.userId == uid && e.operation == op && cutoff < e.createdAt)

/-- SQL function `public.get_rate_limit_status(p_user_id, p_operation)`.
`authUid` is `auth.uid()`, `log` the `rate_limit_logs` table, `now` the
SQL `NOW()`.  The authorization check raises (modelled as `Except.error`)
before either `SELECT`; the two selects count rows and take
`MIN(created_at)` for `created_at > now - interval`, and each reset time
is `oldest + interval` when the window count is positive, else `NULL`. -/
def get_rate_limit_status (authUid : String) (log : List RequestLogEntry)
    (now : Int) (p_user_id p_operation : String) :
    Except String RateLimitStatusRow :=
  if p_user_id ≠ authUid then
    Except.error "Unauthorized: Users can only check their own rate limits"
  else
    let v_hour_ago := now - hourMs
    let v_day_ago := now - dayMs
    let hourRows := windowRows log p_user_id p_operation v_hour_ago
    let dayRows := windowRows log p_user_id p_operation v_day_ago
    let v_hour_count : Int := hourRows.length
    let v_day_count : Int := dayRows.length
    let v_oldest_hour_time := sqlMinCreatedAt hourRows
    let v_oldest_day_time := sqlMinCreatedAt dayRows
    Except.ok
      { requests_this_hour := v_hour_count
        requests_this_day := v_day_count
        hour_resets_at :=
          if v_hour_count > 0 then v_oldest_hour_time.map (fun t => t + hourMs) else none
        day_resets_at :=
          if v_day_count > 0 then v_oldest_day_time.map (fun t => t + dayMs) else none }

/-- `logRateLimitRequest` of the TypeScript source, abstracted over the
outcome of the awaited insert into `rate_limit_logs`.  The whole body is
wrapped in `try/catch`: a failed insert is caught and reported via
`console.error` (the second component collects console output) and the
function still resolves (`Except.ok ()`). -/
def logRateLimitRequest (insertResult : Except String Unit) :
    Except String Unit × List String :=
  match insertResult with
  | Except.ok _ => (Except.ok (), [])
  | Except.error e => (Except.ok (), ["Error logging rate limit request: " ++ e])

/-- A row of the `audit_logs` table (migration `20260122000000`). -/
structure AuditLogEntry where
  id : Nat
  userId : String
  action : String
  resourceType : String
  resourceId : Option String
  metadata : Option String
deriving Repr, DecidableEq

/-- The `INSERT INTO public.audit_logs ... RETURNING id` of
`log_audit_event`.  `users` is the key set of `auth.users`; the insert
fails with a foreign-key violation when `user_id` references no user
(`user_id UUID NOT NULL REFERENCES auth.users(id)`). -/
def insertAuditLog (users : List String) (log : List AuditLogEntry)
    (uid action resourceType : String) (resourceId metadata : Option String) :
    Except String (Nat × List AuditLogEntry) :=
  if users.contains uid then
    let newId := log.length
    Except.ok (newId, log ++ [⟨newId, uid, action, resourceType, resourceId, metadata⟩])
  else
    Except.error "insert or update on table audit_logs violates foreign key constraint"

/-- SQL function `public.log_audit_event`: performs the insert and
returns the new row id.  The plpgsql body has no `EXCEPTION` handler, so
a failed insert propagates to the caller unchanged. -/
def log_audit_event (users : List String) (log : List AuditLogEntry)
    (p_user_id p_action p_resource_type : String)
    (p_resource_id p_metadata : Option String) :
    Except String (Nat × List AuditLogEntry) :=
  match insertAuditLog users log p_user_id p_action p_resource_type p_resource_id p_metadata with
  | Except.ok (v_audit_id, newLog) => Except.ok (v_audit_id, newLog)
  | Except.error e => Except.error e

/-- C1: if the Window Counter query for a window reports a storage error,
checkRateLimit returns allowed = true regardless of the actual count,
with remaining equal to the full limit of that window (limitsPerHour on
hourly failure, limitsPerDay on daily failure), resetAtHour = now + 1h,
resetAtDay = now + 24h, and the message noting the check failed and the
request is being allowed. -/
theorem claim1_fail_open_on_storage_error (client : Window → QueryOutcome)
    (config : RateLimitConfig) (now : Int) :
    (client Window.hourly = QueryOutcome.storageError →
      checkRateLimit client config now =
        (⟨true, config.limitsPerHour, now + hourMs, now + dayMs,
          some "Rate limit check failed (allowing request)"⟩, [Window.hourly])) ∧
    (∀ c, client Window.hourly = QueryOutcome.ok c →
      client Window.daily = QueryOutcome.storageError →
      checkRateLimit client config now =
        (⟨true, config.limitsPerDay, now + hourMs, now + dayMs,
          some "Rate limit check failed (allowing request)"⟩,
         [Window.hourly, Window.daily])) := by
  constructor
  · intro h
    simp [checkRateLimit, h]
  · intro c h1 h2
    simp [checkRateLimit, h1, h2]

/-- Witness for C1 at concrete inputs: an hourly storage error and a
daily storage error after an hourly count of 99. -/
theorem claim1_fail_open_on_storage_error_witness :
    checkRateLimit (fun _ => QueryOutcome.storageError) ⟨"generate-notes", "u1", 3, 10⟩ 0 =
      (⟨true, 3, 0 + hourMs, 0 + dayMs,
        some "Rate limit check failed (allowing request)"⟩, [Window.hourly]) ∧
    checkRateLimit
      (fun w => match w with
        | Window.hourly => QueryOutcome.ok (some 99)
        | Window.daily => QueryOutcome.storageError)
      ⟨"generate-notes", "u1", 3, 10⟩ 0 =
      (⟨true, 10, 0 + hourMs, 0 + dayMs,
        some "Rate limit check failed (allowing request)"⟩,
       [Window.hourly, Window.daily]) :=
  ⟨(claim1_fail_open_on_storage_error _ _ _).1 rfl,
   (claim1_fail_open_on_storage_error _ _ _).2 (some 99) rfl rfl⟩

/-- C2: limits are inclusive thresholds.  When the hourly count equals or
exceeds limitsPerHour, checkRateLimit denies with remaining = 0, reset
times now + 1h and now + 24h, and a message citing the hourly limit and
the operation name; when the hourly count is below limitsPerHour (the
N-th call, counting from a count of N-1) and the daily window is below
its limit, the call is allowed. -/
theorem claim2_inclusive_hourly_threshold (client : Window → QueryOutcome)
    (config : RateLimitConfig) (now : Int) (h d : Option Int)
    (hh : client Window.hourly = QueryOutcome.ok h)
    (hd : client Window.daily = QueryOutcome.ok d) :
    (jsOrZero h ≥ config.limitsPerHour →
      (checkRateLimit client config now).1 =
        ⟨false, 0, now + hourMs, now + dayMs,
          some ("Rate limit exceeded for " ++ config.operation ++ ". Max "
            ++ toString config.limitsPerHour
            ++ " requests per hour. Try again in an hour.")⟩) ∧
    (jsOrZero h < config.limitsPerHour → jsOrZero d < config.limitsPerDay →
      (checkRateLimit client config now).1.allowed = true) := by
  constructor
  · intro hge
    simp [checkRateLimit, hh, hd, hge]
  · intro hlt dlt
    simp [checkRateLimit, hh, hd, not_le.mpr hlt, not_le.mpr dlt]

/-- Witness for C2 with limitsPerHour = 3: a count of exactly 3 is
denied with the hourly message, a count of 2 is allowed. -/
theorem claim2_inclusive_hourly_threshold_witness :
    (checkRateLimit (fun _ => QueryOutcome.ok (some 3))
      ⟨"generate-notes", "u1", 3, 10⟩ 0).1 =
      ⟨false, 0, 0 + hourMs, 0 + dayMs,
        some ("Rate limit exceeded for " ++ "generate-notes" ++ ". Max "
          ++ toString (3 : Int) ++ " requests per hour. Try again in an hour.")⟩ ∧
    (checkRateLimit (fun _ => QueryOutcome.ok (some 2))
      ⟨"generate-notes", "u1", 3, 10⟩ 0).1.allowed = true :=
  ⟨(claim2_inclusive_hourly_threshold _ _ 0 (some 3) (some 3) rfl rfl).1 (by decide),
   (claim2_inclusive_hourly_threshold _ _ 0 (some 2) (some 2) rfl rfl).2
      (by decide) (by decide)⟩

/-- C3 counterexample: with an hourly count of 5 against an hourly limit
of 3, the daily window is still queried (the trace of queried windows is
[hourly, daily], not [hourly]), refuting that the Window Counter is
never queried for the daily window when the hourly count reaches the
limit. -/
theorem claim3_counterexample :
    jsOrZero (some 5) ≥ (3 : Int) ∧
    Window.daily ∈ (checkRateLimit (fun _ => QueryOutcome.ok (some 5))
      ⟨"generate-notes", "u1", 3, 10⟩ 0).2 := by
  refine ⟨by decide, ?_⟩
  have h : (checkRateLimit (fun _ => QueryOutcome.ok (some 5))
      ⟨"generate-notes", "u1", 3, 10⟩ 0).2 = [Window.hourly, Window.daily] := rfl
  rw [h]
  simp

/-- C3 amended: the hourly limit is compared strictly before the daily
limit, and a request at or over the hourly quota is denied with the
hourly message whatever the daily count is; but the comparison does not
short-circuit the query: when the hourly query succeeds the daily window
is always queried, even when the hourly count is at or above
limitsPerHour. -/
theorem claim3_hourly_decided_first_but_daily_still_queried
    (client : Window → QueryOutcome) (config : RateLimitConfig) (now : Int)
    (h d : Option Int)
    (hh : client Window.hourly = QueryOutcome.ok h)
    (hd : client Window.daily = QueryOutcome.ok d)
    (hge : jsOrZero h ≥ config.limitsPerHour) :
    (checkRateLimit client config now).1.allowed = false ∧
    (checkRateLimit client config now).1.message =
      some ("Rate limit exceeded for " ++ config.operation ++ ". Max "
        ++ toString config.limitsPerHour
        ++ " requests per hour. Try again in an hour.") ∧
    (checkRateLimit client config now).2 = [Window.hourly, Window.daily] := by
  refine ⟨?_, ?_, ?_⟩ <;> simp [checkRateLimit, hh, hd, hge]

/-- Witness for the amended C3: hourly count 5, hourly limit 3, daily
count 0 — denied hourly, and both windows were queried. -/
theorem claim3_hourly_decided_first_but_daily_still_queried_witness :
    (checkRateLimit
      (fun w => match w with
        | Window.hourly => QueryOutcome.ok (some 5)
        | Window.daily => QueryOutcome.ok (some 0))
      ⟨"generate-notes", "u1", 3, 10⟩ 0).1.allowed = false ∧
    (checkRateLimit
      (fun w => match w with
        | Window.hourly => QueryOutcome.ok (some 5)
        | Window.daily => QueryOutcome.ok (some 0))
      ⟨"generate-notes", "u1", 3, 10⟩ 0).2 = [Window.hourly, Window.daily] := by
  have h := claim3_hourly_decided_first_but_daily_still_queried
    (fun w => match w with
      | Window.hourly => QueryOutcome.ok (some 5)
      | Window.daily => QueryOutcome.ok (some 0))
    ⟨"generate-notes", "u1", 3, 10⟩ 0 (some 5) (some 0) rfl rfl (by decide)
  exact ⟨h.1, h.2.2⟩

/-- C5: on every successfully evaluated call (both window queries
succeed), a denial returns remaining = 0, and an allowance returns
remaining = limitsPerHour - hourlyCount - 1, which is never negative
because the allow path implies hourlyCount < limitsPerHour. -/
theorem claim5_remaining_semantics (client : Window → QueryOutcome)
    (config : RateLimitConfig) (now : Int) (h d : Option Int)
    (hh : client Window.hourly = QueryOutcome.ok h)
    (hd : client Window.daily = QueryOutcome.ok d) :
    ((checkRateLimit client config now).1.allowed = false →
      (checkRateLimit client config now).1.remaining = 0) ∧
    ((checkRateLimit client config now).1.allowed = true →
      (checkRateLimit client config now).1.remaining =
        config.limitsPerHour - jsOrZero h - 1 ∧
      0 ≤ (checkRateLimit client config now).1.remaining) := by
  by_cases h1 : jsOrZero h ≥ config.limitsPerHour
  · constructor
    · intro _
      simp [checkRateLimit, hh, hd, h1]
    · intro hcontra
      simp [checkRateLimit, hh, hd, h1] at hcontra
  · by_cases h2 : jsOrZero d ≥ config.limitsPerDay
    · constructor
      · intro _
        simp [checkRateLimit, hh, hd, h1, h2]
      · intro hcontra
        simp [checkRateLimit, hh, hd, h1, h2] at hcontra
    · constructor
      · intro hcontra
        simp [checkRateLimit, hh, hd, h1, h2] at hcontra
      · intro _
        refine ⟨by simp [checkRateLimit, hh, hd, h1, h2], ?_⟩
        have hlt : jsOrZero h < config.limitsPerHour := not_le.mp h1
        have : (checkRateLimit client config now).1.remaining =
            config.limitsPerHour - jsOrZero h - 1 := by
          simp [checkRateLimit, hh, hd, h1, h2]
        rw [this]
        omega

/-- Witness for C5: limits 3/10, hourly count 3 denied with remaining 0;
hourly count 1 allowed with remaining 3 - 1 - 1 = 1 which is not
negative. -/
theorem claim5_remaining_semantics_witness :
    ((checkRateLimit (fun _ => QueryOutcome.ok (some 3))
        ⟨"generate-notes", "u1", 3, 10⟩ 0).1.remaining = 0) ∧
    ((checkRateLimit (fun _ => QueryOutcome.ok (some 1))
        ⟨"generate-notes", "u1", 3, 10⟩ 0).1.remaining = (3 : Int) - jsOrZero (some 1) - 1 ∧
      0 ≤ (checkRateLimit (fun _ => QueryOutcome.ok (some 1))
        ⟨"generate-notes", "u1", 3, 10⟩ 0).1.remaining) :=
  ⟨(claim5_remaining_semantics _ ⟨"generate-notes", "u1", 3, 10⟩ 0
      (some 3) (some 3) rfl rfl).1 rfl,
   (claim5_remaining_semantics _ ⟨"generate-notes", "u1", 3, 10⟩ 0
      (some 1) (some 1) rfl rfl).2 rfl⟩

/-- C8 counterexample: when the evaluation throws (here already the
hourly query), the top-level catch result carries no message at all
(message = none), refuting that a message explaining the degraded
fail-open evaluation is present. -/
theorem claim8_counterexample :
    (checkRateLimit (fun _ => QueryOutcome.thrown)
      ⟨"generate-quiz", "u1", 5, 20⟩ 0).1.message = none := rfl

/-- C8 amended: any unexpected exception during the evaluation is caught
at the top level and yields allowed = true, remaining = limitsPerHour,
resetAtHour = now + 1h, resetAtDay = now + 24h — but unlike the storage
error branches of steps 2/4 the catch branch returns no message. -/
theorem claim8_catch_fail_open_without_message
    (client : Window → QueryOutcome) (config : RateLimitConfig) (now : Int)
    (h : client Window.hourly = QueryOutcome.thrown ∨
      ∃ c, client Window.hourly = QueryOutcome.ok c ∧
        client Window.daily = QueryOutcome.thrown) :
    (checkRateLimit client config now).1 =
      ⟨true, config.limitsPerHour, now + hourMs, now + dayMs, none⟩ := by
  rcases h with h1 | ⟨c, h1, h2⟩
  · simp [checkRateLimit, h1]
  · simp [checkRateLimit, h1, h2]

/-- Witness for the amended C8: a thrown hourly query yields the
message-free fail-open result. -/
theorem claim8_catch_fail_open_without_message_witness :
    (checkRateLimit (fun _ => QueryOutcome.thrown)
      ⟨"generate-quiz", "u1", 5, 20⟩ 0).1 =
      ⟨true, 5, 0 + hourMs, 0 + dayMs, none⟩ :=
  claim8_catch_fail_open_without_message _ _ _ (Or.inl rfl)

/-- C10: a query that succeeds with a null count is treated as count 0;
with null counts on both windows and both limits at least 1, the call is
allowed with remaining = limitsPerHour - 1. -/
theorem claim10_null_count_treated_as_zero
    (client : Window → QueryOutcome) (config : RateLimitConfig) (now : Int)
    (hh : client Window.hourly = QueryOutcome.ok none)
    (hd : client Window.daily = QueryOutcome.ok none)
    (h1 : 1 ≤ config.limitsPerHour) (h2 : 1 ≤ config.limitsPerDay) :
    (checkRateLimit client config now).1 =
      ⟨true, config.limitsPerHour - 1, now + hourMs, now + dayMs, none⟩ := by
  have hlt : ¬ config.limitsPerHour ≤ (0 : Int) := by omega
  have dlt : ¬ config.limitsPerDay ≤ (0 : Int) := by omega
  simp [checkRateLimit, hh, hd, jsOrZero, hlt, dlt]

/-- Witness for C10: null counts with limits 3/10 give an allowance with
remaining 2. -/
theorem claim10_null_count_treated_as_zero_witness :
    (checkRateLimit (fun _ => QueryOutcome.ok none)
      ⟨"generate-notes", "u1", 3, 10⟩ 0).1 =
      ⟨true, (3 : Int) - 1, 0 + hourMs, 0 + dayMs, none⟩ :=
  claim10_null_count_treated_as_zero _ _ _ rfl rfl (by decide) (by decide)

theorem mem_windowRows {log : List RequestLogEntry} {uid op : String} {cutoff : Int}
    {e : RequestLogEntry} :
    e ∈ windowRows log uid op cutoff ↔
      e ∈ log ∧ e.userId = uid ∧ e.operation = op ∧ cutoff < e.createdAt := by
  simp [windowRows, List.mem_filter, and_assoc]

theorem windowRows_eq_nil_iff {log : List RequestLogEntry} {uid op : String} {cutoff : Int} :
    windowRows log uid op cutoff = [] ↔
      ∀ e ∈ log, e.userId = uid → e.operation = op → e.createdAt ≤ cutoff := by
  rw [windowRows, List.filter_eq_nil_iff]
  constructor
  · intro h e he h1 h2
    have h3 := h e he
    simp [h1, h2] at h3
    exact h3
  · intro h e he
    by_cases h1 : e.userId = uid
    · by_cases h2 : e.operation = op
      · simp [h1, h2]
        exact h e he h1 h2
      · simp [h2]
    · simp [h1]

theorem sqlMinCreatedAt_cons (e : RequestLogEntry) (rs : List RequestLogEntry) :
    sqlMinCreatedAt (e :: rs) =
      match sqlMinCreatedAt rs with
      | none => some e.createdAt
      | some m => some (min e.createdAt m) := rfl

theorem sqlMinCreatedAt_eq_none_iff (rows : List RequestLogEntry) :
    sqlMinCreatedAt rows = none ↔ rows = [] := by
  cases rows with
  | nil => simp [sqlMinCreatedAt]
  | cons e rs =>
    rw [sqlMinCreatedAt_cons]
    cases h : sqlMinCreatedAt rs <;> simp

theorem sqlMinCreatedAt_spec (rows : List RequestLogEntry) (m : Int)
    (h : sqlMinCreatedAt rows = some m) :
    (∃ e ∈ rows, e.createdAt = m) ∧ ∀ e ∈ rows, m ≤ e.createdAt := by
  induction rows generalizing m with
  | nil => simp [sqlMinCreatedAt] at h
  | cons e rs ih =>
    rw [sqlMinCreatedAt_cons] at h
    cases hrs : sqlMinCreatedAt rs with
    | none =>
      rw [hrs] at h
      have hm : e.createdAt = m := Option.some.inj h
      have hempty : rs = [] := (sqlMinCreatedAt_eq_none_iff rs).mp hrs
      subst hempty
      subst hm
      simp
    | some m0 =>
      rw [hrs] at h
      have hm : min e.createdAt m0 = m := Option.some.inj h
      obtain ⟨⟨e0, he0, he0m⟩, hlb⟩ := ih m0 hrs
      constructor
      · rcases le_total e.createdAt m0 with hc | hc
        · exact ⟨e, by simp, by rw [← hm, min_eq_left hc]⟩
        · exact ⟨e0, by simp [he0], by rw [← hm, min_eq_right hc, he0m]⟩
      · intro x hx
        rcases List.mem_cons.mp hx with rfl | hx2
        · rw [← hm]
          exact min_le_left _ _
        · have := hlb x hx2
          have h2 : m ≤ m0 := by rw [← hm]; exact min_le_right _ _
          omega

theorem windowRows_length_eq_countP (log : List RequestLogEntry) (uid op : String)
    (cutoff : Int) :
    (windowRows log uid op cutoff).length =
      log.countP (fun e => decide (e.userId = uid ∧ e.operation = op ∧ cutoff < e.createdAt)) := by
  rw [windowRows, List.countP_eq_length_filter]
  congr 1
  apply List.filter_congr
  intro e _
  by_cases h1 : e.userId = uid <;> by_cases h2 : e.operation = op <;>
    by_cases h3 : cutoff < e.createdAt <;> simp [h1, h2, h3]

theorem get_rate_limit_status_self (uid op : String) (log : List RequestLogEntry)
    (now : Int) :
    get_rate_limit_status uid log now uid op = Except.ok
      { requests_this_hour := ((windowRows log uid op (now - hourMs)).length : Int)
        requests_this_day := ((windowRows log uid op (now - dayMs)).length : Int)
        hour_resets_at :=
          if ((windowRows log uid op (now - hourMs)).length : Int) > 0 then
            (sqlMinCreatedAt (windowRows log uid op (now - hourMs))).map (fun t => t + hourMs)
          else none
        day_resets_at :=
          if ((windowRows log uid op (now - dayMs)).length : Int) > 0 then
            (sqlMinCreatedAt (windowRows log uid op (now - dayMs))).map (fun t => t + dayMs)
          else none } := by
  simp [get_rate_limit_status]

theorem windowResets_none_iff (log : List RequestLogEntry) (uid op : String)
    (cutoff w : Int) :
    (if ((windowRows log uid op cutoff).length : Int) > 0 then
        (sqlMinCreatedAt (windowRows log uid op cutoff)).map (fun t => t + w)
      else none) = none ↔
      ∀ e ∈ log, e.userId = uid → e.operation = op → e.createdAt ≤ cutoff := by
  by_cases hnil : windowRows log uid op cutoff = []
  · rw [hnil]
    simp
    exact windowRows_eq_nil_iff.mp hnil
  · have hpos : ((windowRows log uid op cutoff).length : Int) > 0 := by
      have h1 : 0 < (windowRows log uid op cutoff).length :=
        List.length_pos.mpr hnil
      exact_mod_cast h1
    rw [if_pos hpos]
    cases hs : sqlMinCreatedAt (windowRows log uid op cutoff) with
    | none => exact absurd ((sqlMinCreatedAt_eq_none_iff _).mp hs) hnil
    | some m =>
      simp only [Option.map_some']
      constructor
      · intro hcontra
        exact absurd hcontra (Option.some_ne_none _)
      · intro hall
        exact absurd (windowRows_eq_nil_iff.mpr hall) hnil

theorem windowResets_some (log : List RequestLogEntry) (uid op : String)
    (cutoff w r : Int)
    (h : (if ((windowRows log uid op cutoff).length : Int) > 0 then
        (sqlMinCreatedAt (windowRows log uid op cutoff)).map (fun t => t + w)
      else none) = some r) :
    ∃ e ∈ log, e.userId = uid ∧ e.operation = op ∧ cutoff < e.createdAt ∧
      r = e.createdAt + w ∧
      ∀ e2 ∈ log, e2.userId = uid → e2.operation = op → cutoff < e2.createdAt →
        e.createdAt ≤ e2.createdAt := by
  by_cases hnil : windowRows log uid op cutoff = []
  · rw [hnil] at h
    simp at h
  · have hpos : ((windowRows log uid op cutoff).length : Int) > 0 := by
      have h1 : 0 < (windowRows log uid op cutoff).length :=
        List.length_pos.mpr hnil
      exact_mod_cast h1
    rw [if_pos hpos] at h
    cases hs : sqlMinCreatedAt (windowRows log uid op cutoff) with
    | none => exact absurd ((sqlMinCreatedAt_eq_none_iff _).mp hs) hnil
    | some m =>
      rw [hs] at h
      simp only [Option.map_some', Option.some.injEq] at h
      obtain ⟨⟨e, he, hem⟩, hlb⟩ := sqlMinCreatedAt_spec _ m hs
      obtain ⟨hel, heu, heo, hec⟩ := mem_windowRows.mp he
      refine ⟨e, hel, heu, heo, hec, by omega, ?_⟩
      intro e2 he2 h1 h2 h3
      have hmem : e2 ∈ windowRows log uid op cutoff := mem_windowRows.mpr ⟨he2, h1, h2, h3⟩
      have := hlb e2 hmem
      omega

/-- C4: when the caller identity differs from the requested userId,
get_rate_limit_status fails with the authorization error before any data
access — the result is the same error for every state of the request
log, so no query against it is performed; only when the identities are
equal does the function read data and return a row. -/
theorem claim4_status_self_only_authorization (authUid uid : String) :
    (uid ≠ authUid → ∀ (op : String) (log : List RequestLogEntry) (now : Int),
      get_rate_limit_status authUid log now uid op =
        Except.error "Unauthorized: Users can only check their own rate limits") ∧
    (uid = authUid → ∀ (op : String) (log : List RequestLogEntry) (now : Int),
      ∃ row, get_rate_limit_status authUid log now uid op = Except.ok row) := by
  constructor
  · intro h op log now
    simp [get_rate_limit_status, h]
  · intro h op log now
    subst h
    exact ⟨_, get_rate_limit_status_self uid op log now⟩

/-- Witness for C4: caller identity A asking for user B is rejected with
the authorization error on two different log states; caller A asking for
A gets a row. -/
theorem claim4_status_self_only_authorization_witness :
    get_rate_limit_status "userA" [] 0 "userB" "generate-notes" =
      Except.error "Unauthorized: Users can only check their own rate limits" ∧
    get_rate_limit_status "userA" [⟨0, "userB", "generate-notes", true, 0⟩] 0
        "userB" "generate-notes" =
      Except.error "Unauthorized: Users can only check their own rate limits" ∧
    ∃ row, get_rate_limit_status "userA" [] 0 "userA" "generate-notes" = Except.ok row :=
  ⟨(claim4_status_self_only_authorization "userA" "userB").1 (by decide) "generate-notes" [] 0,
   (claim4_status_self_only_authorization "userA" "userB").1 (by decide) "generate-notes"
     [⟨0, "userB", "generate-notes", true, 0⟩] 0,
   (claim4_status_self_only_authorization "userA" "userA").2 rfl "generate-notes" [] 0⟩

/-- C6: for a self-query, get_rate_limit_status returns the counts of
request-log entries of this user and operation in the trailing hour and
trailing day; each reset time is the timestamp of the true oldest entry
of the window plus the window duration, and is null exactly when the
window holds no entry (hence with an empty log it returns 0, 0, null,
null). -/
theorem claim6_status_counts_and_true_oldest_resets
    (authUid uid op : String) (log : List RequestLogEntry) (now : Int)
    (h : uid = authUid) :
    ∃ row, get_rate_limit_status authUid log now uid op = Except.ok row ∧
      row.requests_this_hour =
        (log.countP (fun e =>
          decide (e.userId = uid ∧ e.operation = op ∧ now - hourMs < e.createdAt)) : Int) ∧
      row.requests_this_day =
        (log.countP (fun e =>
          decide (e.userId = uid ∧ e.operation = op ∧ now - dayMs < e.createdAt)) : Int) ∧
      (row.hour_resets_at = none ↔
        ∀ e ∈ log, e.userId = uid → e.operation = op → e.createdAt ≤ now - hourMs) ∧
      (∀ r, row.hour_resets_at = some r →
        ∃ e ∈ log, e.userId = uid ∧ e.operation = op ∧ now - hourMs < e.createdAt ∧
          r = e.createdAt + hourMs ∧
          ∀ e2 ∈ log, e2.userId = uid → e2.operation = op →
            now - hourMs < e2.createdAt → e.createdAt ≤ e2.createdAt) ∧
      (row.day_resets_at = none ↔
        ∀ e ∈ log, e.userId = uid → e.operation = op → e.createdAt ≤ now - dayMs) ∧
      (∀ r, row.day_resets_at = some r →
        ∃ e ∈ log, e.userId = uid ∧ e.operation = op ∧ now - dayMs < e.createdAt ∧
          r = e.createdAt + dayMs ∧
          ∀ e2 ∈ log, e2.userId = uid → e2.operation = op →
            now - dayMs < e2.createdAt → e.createdAt ≤ e2.createdAt) := by
  subst h
  refine ⟨_, get_rate_limit_status_self uid op log now, ?_, ?_, ?_, ?_, ?_, ?_⟩
  · exact congrArg Nat.cast (windowRows_length_eq_countP log uid op (now - hourMs))
  · exact congrArg Nat.cast (windowRows_length_eq_countP log uid op (now - dayMs))
  · exact windowResets_none_iff log uid op (now - hourMs) hourMs
  · exact fun r hr => windowResets_some log uid op (now - hourMs) hourMs r hr
  · exact windowResets_none_iff log uid op (now - dayMs) dayMs
  · exact fun r hr => windowResets_some log uid op (now - dayMs) dayMs r hr

/-- Witness for C6, the zero-entries scenario: with an empty request log
the self-query returns counts 0 and 0 and null reset times. -/
theorem claim6_status_counts_and_true_oldest_resets_witness :
    ∃ row, get_rate_limit_status "userA" [] 0 "userA" "generate-notes" = Except.ok row ∧
      row.requests_this_hour = 0 ∧ row.requests_this_day = 0 ∧
      row.hour_resets_at = none ∧ row.day_resets_at = none := by
  obtain ⟨row, hok, hhc, hdc, hhn, _, hdn, _⟩ :=
    claim6_status_counts_and_true_oldest_resets "userA" "userA" "generate-notes" [] 0 rfl
  refine ⟨row, hok, ?_, ?_, ?_, ?_⟩
  · rw [hhc]; rfl
  · rw [hdc]; rfl
  · exact hhn.mpr (by intro e he; simp at he)
  · exact hdn.mpr (by intro e he; simp at he)

/-- C7 counterexample: an insertion failure inside log_audit_event (here
a foreign-key violation: the user does not exist in auth.users) reaches
the caller as an error, refuting that the audit recorder never lets an
insertion failure reach the caller. -/
theorem claim7_counterexample :
    log_audit_event [] [] "ghost-user" "quiz_submitted" "quiz" none none =
      Except.error "insert or update on table audit_logs violates foreign key constraint" :=
  rfl

/-- C7 amended: logRequest (logRateLimitRequest) never throws — a failed
insert into the request log is swallowed after logging it to the console
— but log_audit_event has no exception handler, so a failed insert into
the audit log propagates to the caller. -/
theorem claim7_log_request_swallows_but_audit_propagates :
    (∀ insertResult : Except String Unit,
      (logRateLimitRequest insertResult).1 = Except.ok ()) ∧
    (∀ e : String, (logRateLimitRequest (Except.error e)).2 ≠ []) ∧
    (∀ (users : List String) (log : List AuditLogEntry)
        (uid a rt : String) (rid md : Option String),
      users.contains uid = false →
      log_audit_event users log uid a rt rid md =
        Except.error "insert or update on table audit_logs violates foreign key constraint") := by
  refine ⟨?_, ?_, ?_⟩
  · intro r
    cases r <;> rfl
  · intro e
    simp [logRateLimitRequest]
  · intro users log uid a rt rid md h
    have h2 : uid ∉ users := by simpa using h
    simp [log_audit_event, insertAuditLog, h2]

/-- Witness for the amended C7: a failed request-log insert still
resolves and logs to the console, and an audit insert for an unknown
user errors out to the caller. -/
theorem claim7_log_request_swallows_but_audit_propagates_witness :
    (logRateLimitRequest (Except.error "connection reset")).1 = Except.ok () ∧
    (logRateLimitRequest (Except.error "connection reset")).2 ≠ [] ∧
    log_audit_event ["userA"] [] "userB" "quiz_submitted" "quiz" none none =
      Except.error "insert or update on table audit_logs violates foreign key constraint" :=
  ⟨claim7_log_request_swallows_but_audit_propagates.1 (Except.error "connection reset"),
   claim7_log_request_swallows_but_audit_propagates.2.1 "connection reset",
   claim7_log_request_swallows_but_audit_propagates.2.2 ["userA"] [] "userB"
     "quiz_submitted" "quiz" none none (by decide)⟩

/-- C9 counterexample: the Window Counter query of checkRateLimit uses
gte (at or after the cutoff), so an entry whose createdAt equals the
cutoff is counted, while the number of entries strictly after the cutoff
is 0 — refuting that entries at the cutoff are not counted. -/
theorem claim9_counterexample :
    rateLimitCount [⟨0, "u1", "generate-notes", true, 1000⟩] "u1" "generate-notes" 1000 = 1 ∧
    ([(⟨0, "u1", "generate-notes", true, 1000⟩ : RequestLogEntry)].countP
      (fun e => decide ((1000 : Int) < e.createdAt))) = 0 := by
  constructor
  · rfl
  · rfl

/-- C9 amended: the count the Evaluator queries equals the number of
entries of exactly this user and operation with createdAt at or after
the cutoff (gte, not strictly after — the Status Query Service variant
uses strictly-after); entries of another user or operation never affect
the count, and entries strictly before the cutoff are never counted. -/
theorem claim9_count_characterization (log : List RequestLogEntry)
    (uid op : String) (cutoff : Int) :
    (rateLimitCount log uid op cutoff =
      (log.countP (fun e =>
        decide (e.userId = uid ∧ e.operation = op ∧ cutoff ≤ e.createdAt)) : Int)) ∧
    (∀ e : RequestLogEntry, e.userId ≠ uid ∨ e.operation ≠ op →
      rateLimitCount (e :: log) uid op cutoff = rateLimitCount log uid op cutoff) ∧
    (∀ e : RequestLogEntry, e.createdAt < cutoff →
      rateLimitCount (e :: log) uid op cutoff = rateLimitCount log uid op cutoff) := by
  refine ⟨?_, ?_, ?_⟩
  · have hlen : (log.filter (fun e =>
        e.userId == uid && e.operation == op && cutoff ≤ e.createdAt)).length =
        log.countP (fun e =>
          decide (e.userId = uid ∧ e.operation = op ∧ cutoff ≤ e.createdAt)) := by
      rw [List.countP_eq_length_filter]
      congr 1
      apply List.filter_congr
      intro e _
      by_cases h1 : e.userId = uid <;> by_cases h2 : e.operation = op <;>
        by_cases h3 : cutoff ≤ e.createdAt <;> simp [h1, h2, h3]
    exact congrArg Nat.cast hlen
  · intro e he
    have hp : (e.userId == uid && e.operation == op && decide (cutoff ≤ e.createdAt)) = false := by
      rcases he with h | h <;> simp [h]
    simp [rateLimitCount, List.filter_cons, hp]
  · intro e he
    have hp : (e.userId == uid && e.operation == op && decide (cutoff ≤ e.createdAt)) = false := by
      have : ¬ cutoff ≤ e.createdAt := not_le.mpr he
      simp [this]
    simp [rateLimitCount, List.filter_cons, hp]

/-- Witness for the amended C9: the count over a one-entry log matches
the characterization, an entry of another user and an entry before the
cutoff both leave the count unchanged. -/
theorem claim9_count_characterization_witness :
    rateLimitCount [⟨0, "u1", "generate-notes", true, 2000⟩] "u1" "generate-notes" 500 =
      ([(⟨0, "u1", "generate-notes", true, 2000⟩ : RequestLogEntry)].countP
        (fun e => decide (e.userId = "u1" ∧ e.operation = "generate-notes" ∧
          (500 : Int) ≤ e.createdAt)) : Int) ∧
    rateLimitCount (⟨1, "u2", "generate-notes", true, 2000⟩ ::
        [⟨0, "u1", "generate-notes", true, 2000⟩]) "u1" "generate-notes" 500 =
      rateLimitCount [⟨0, "u1", "generate-notes", true, 2000⟩] "u1" "generate-notes" 500 ∧
    rateLimitCount (⟨2, "u1", "generate-notes", true, 100⟩ ::
        [⟨0, "u1", "generate-notes", true, 2000⟩]) "u1" "generate-notes" 500 =
      rateLimitCount [⟨0, "u1", "generate-notes", true, 2000⟩] "u1" "generate-notes" 500 :=
  ⟨(claim9_count_characterization [⟨0, "u1", "generate-notes", true, 2000⟩]
      "u1" "generate-notes" 500).1,
   (claim9_count_characterization [⟨0, "u1", "generate-notes", true, 2000⟩]
      "u1" "generate-notes" 500).2.1 ⟨1, "u2", "generate-notes", true, 2000⟩
      (Or.inl (by decide)),
   (claim9_count_characterization [⟨0, "u1", "generate-notes", true, 2000⟩]
      "u1" "generate-notes" 500).2.2 ⟨2, "u1", "generate-notes", true, 100⟩ (by decide)⟩

end EduRank
